import Mathlib

/-
Formal model of the opencode_py runtime.

Shallow embedding of the components the specification talks about:
the permission engine (src/opencode/permission/permission.py), token and
cost accounting (src/session/manager.py, SessionManager.calculate_usage),
the deferred-effect queues (src/session/manager.py Database and
src/opencode/store/db.py Database.transaction), the tool registry
(src/opencode/tool/tool.py), session forking (src/session/manager.py
SessionManager.fork) and the agent prompt loop
(src/opencode/session/prompt.py SessionPrompt).

Python dictionaries are modelled as association lists or as structures
with Option-valued fields (none = key absent), Python truthiness is made
explicit where the source branches on it, machine strings keep Python
lexicographic (code-point) comparison, which coincides with the order on
Lean String.
-/

/-! ## Permission engine (src/opencode/permission/permission.py) -/

inductive PermissionLevel where
  | allow
  | ask
  | deny
deriving DecidableEq, Repr

/-- A permission rule, from the PermissionRule dataclass.  `expiresAt`
is a timestamp (none = no expiry); the dataclass field `created_at` plays
no role in matching and is omitted. -/
structure PermissionRule where
  tool : String
  level : PermissionLevel
  pattern : Option String := none
  expiresAt : Option Int := none
deriving DecidableEq, Repr

/-- Python truthiness of an optional string (None and "" are falsy). -/
def optStrTruthy : Option String → Bool
  | none => false
  | some s => !(s == "")

/-- The `context` argument of PermissionRule.matches: an optional Python
dict.  `none` is None; `some []` is the empty dict; both are falsy. -/
def ctxTruthy : Option (List (String × String)) → Bool
  | none => false
  | some d => !d.isEmpty

/-- `context.get("path", "")` of the source (only evaluated when the
context is truthy). -/
def ctxPath : Option (List (String × String)) → String
  | none => ""
  | some d => (d.lookup "path").getD ""

/-- `self.expires_at and datetime.now() > self.expires_at`. -/
def ruleExpired (now : Int) (r : PermissionRule) : Bool :=
  match r.expiresAt with
  | some e => decide (now > e)
  | none => false

/-- PermissionRule.matches.  `fnmatch` stands for the library function
fnmatch.fnmatch used by the source; `now` stands for datetime.now().
Checks, in source order: tool equality, expiry, and the glob pattern —
the pattern test is guarded by `if self.pattern and context:` so it is
skipped whenever the pattern or the context is falsy. -/
def PermissionRule.matches (fnmatch : String → String → Bool) (now : Int)
    (r : PermissionRule) (tool : String)
    (context : Option (List (String × String))) : Bool :=
  if r.tool != tool then false
  else if ruleExpired now r then false
  else if optStrTruthy r.pattern && ctxTruthy context then
    match r.pattern with
    | some p => fnmatch (ctxPath context) p
    | none => true
  else true

/-- PermissionManager.check_permission: session rules are scanned in
reverse order of addition, then persistent rules in reverse order; an
unmatched request defaults to ASK. -/
def check_permission (fnmatch : String → String → Bool) (now : Int)
    (sessionRules rules : List PermissionRule) (tool : String)
    (context : Option (List (String × String))) : PermissionLevel :=
  match sessionRules.reverse.find? (fun r => r.matches fnmatch now tool context) with
  | some r => r.level
  | none =>
    match rules.reverse.find? (fun r => r.matches fnmatch now tool context) with
    | some r => r.level
    | none => PermissionLevel.ask

/-- The rules installed by PermissionManager._setup_defaults, in append
order.  Note the source installs no rule for "bash". -/
def defaultRules : List PermissionRule :=
  [ { tool := "read", level := PermissionLevel.allow },
    { tool := "search", level := PermissionLevel.allow },
    { tool := "write", level := PermissionLevel.ask },
    { tool := "edit", level := PermissionLevel.ask },
    { tool := "shell", level := PermissionLevel.ask } ]

/-! ## Token and cost accounting (src/session/manager.py, SessionManager.calculate_usage) -/

/-- A Python value as seen by the helper safe() inside calculate_usage:
None, a finite int (finite numeric token counts are modelled as Int),
the three non-finite floats, or a decimal.Decimal (which is not an
instance of int or float). -/
inductive PyNum where
  | vnone
  | vint (i : Int)
  | vinf
  | vninf
  | vnan
  | vdec (q : ℚ)
deriving DecidableEq, Repr

/-- safe(value): None and non-(int/float) instances (this includes
Decimal) become 0, non-finite floats become 0 (note NaN fails the
`-inf < value < inf` test), and finite numbers pass through. -/
def safe : PyNum → Int
  | PyNum.vint i => i
  | _ => 0

/-- Python truthiness of a PyNum (used by the `or` chains; note NaN and
the infinities are truthy). -/
def pyTruthy : PyNum → Bool
  | PyNum.vnone => false
  | PyNum.vint i => !(i == 0)
  | PyNum.vinf => true
  | PyNum.vninf => true
  | PyNum.vnan => true
  | PyNum.vdec q => !(q == 0)

/-- Python `a or b`. -/
def pyOr (a b : PyNum) : PyNum :=
  if pyTruthy a then a else b

/-- The provider usage dict.  A field of `none` stands for a missing key
(usage.get(k, 0) then yields 0, exactly as a present None does under
safe()). -/
structure Usage where
  inputTokens : Option PyNum := none
  outputTokens : Option PyNum := none
  reasoningTokens : Option PyNum := none
  cachedInputTokens : Option PyNum := none
  totalTokens : Option PyNum := none

/-- usage.get(key, 0). -/
def uget (field : Option PyNum) : PyNum :=
  field.getD (PyNum.vint 0)

/-- metadata["anthropic"]: the key `cacheCreationInputTokens` (none =
key absent) plus a flag recording whether the dict holds further keys,
which decides the truthiness of the dict itself. -/
structure AnthropicMeta where
  cacheCreationInputTokens : Option PyNum := none
  extraKeys : Bool := false

/-- The nested "usage" dict of metadata["bedrock"] / metadata["venice"]. -/
structure VendorUsageMeta where
  cacheWriteInputTokens : Option PyNum := none
  cacheCreationInputTokens : Option PyNum := none
  extraKeys : Bool := false

/-- metadata["bedrock"] or metadata["venice"]. -/
structure VendorMeta where
  usage : Option VendorUsageMeta := none
  extraKeys : Bool := false

/-- The metadata argument.  A value of all-none fields covers both
metadata=None and metadata={} (the source treats them alike through
`(metadata or {})`). -/
structure Metadata where
  anthropic : Option AnthropicMeta := none
  bedrock : Option VendorMeta := none
  venice : Option VendorMeta := none

/-- `(metadata or {}).get("anthropic", {}).get("cacheCreationInputTokens", 0)`. -/
def anthCacheCreation (md : Metadata) : PyNum :=
  match md.anthropic with
  | some a => uget a.cacheCreationInputTokens
  | none => PyNum.vint 0

/-- `(metadata or {}).get("bedrock", {}).get("usage", {}).get("cacheWriteInputTokens", 0)`. -/
def bedrockCacheWrite (md : Metadata) : PyNum :=
  match md.bedrock with
  | some b =>
    match b.usage with
    | some u => uget u.cacheWriteInputTokens
    | none => PyNum.vint 0
  | none => PyNum.vint 0

/-- `(metadata or {}).get("venice", {}).get("usage", {}).get("cacheCreationInputTokens", 0)`. -/
def veniceCacheCreation (md : Metadata) : PyNum :=
  match md.venice with
  | some v =>
    match v.usage with
    | some u => uget u.cacheCreationInputTokens
    | none => PyNum.vint 0
  | none => PyNum.vint 0

/-- Truthiness of the dict `(metadata or {}).get("anthropic")`. -/
def anthTruthy (md : Metadata) : Bool :=
  match md.anthropic with
  | some a => a.cacheCreationInputTokens.isSome || a.extraKeys
  | none => false

/-- Truthiness of the dict `(metadata or {}).get("bedrock")`. -/
def bedrockTruthy (md : Metadata) : Bool :=
  match md.bedrock with
  | some b => b.usage.isSome || b.extraKeys
  | none => false

/-- `excludes_cached = bool(metadata.get("anthropic") or metadata.get("bedrock"))`. -/
def excludes_cached (md : Metadata) : Bool :=
  anthTruthy md || bedrockTruthy md

/-- The per-million token prices read out of a cost dict with
`.get(key, 0)` (the source feeds them to Decimal; exact decimal
arithmetic is carried by ℚ). -/
structure CostRates where
  input : ℚ := 0
  output : ℚ := 0
  cacheRead : ℚ := 0
  cacheWrite : ℚ := 0

/-- model.get("cost", {}): the base rates plus the optional
experimentalOver200K tier. -/
structure CostDict where
  base : CostRates := {}
  experimentalOver200K : Option CostRates := none

/-- The model descriptor: `model.get("api", {}).get("npm")` and
`model.get("cost", {})`. -/
structure ModelDesc where
  apiNpm : Option String := none
  cost : CostDict := {}

/-- The npm package list the source compares `model["api"]["npm"]`
against when computing the total. -/
def cacheExcludedNpm : List String :=
  ["@ai-sdk/anthropic", "@ai-sdk/amazon-bedrock", "@ai-sdk/google-vertex/anthropic"]

/-- `model.get("api", {}).get("npm") in [...]` (a missing key is None,
which is in no list of strings). -/
def isCacheExcludedFamily (model : ModelDesc) : Bool :=
  match model.apiNpm with
  | some s => cacheExcludedNpm.contains s
  | none => false

/-- Intermediate values of calculate_usage, named as in the source. -/
def input_tokens (usage : Usage) : Int := safe (uget usage.inputTokens)

def output_tokens (usage : Usage) : Int := safe (uget usage.outputTokens)

def reasoning_tokens (usage : Usage) : Int := safe (uget usage.reasoningTokens)

def cache_read (usage : Usage) : Int := safe (uget usage.cachedInputTokens)

def cache_write (md : Metadata) : Int :=
  safe (pyOr (anthCacheCreation md)
    (pyOr (bedrockCacheWrite md)
      (pyOr (veniceCacheCreation md) (PyNum.vint 0))))

/-- `adjusted_input = safe(input_tokens) if excludes_cached else
safe(input_tokens - cache_read - cache_write)`. -/
def adjusted_input (usage : Usage) (md : Metadata) : Int :=
  if excludes_cached md then safe (PyNum.vint (input_tokens usage))
  else safe (PyNum.vint (input_tokens usage - cache_read usage - cache_write md))

/-- The nested cache block of the returned tokens dict. -/
structure CacheTokens where
  write : Int
  read : Int
deriving DecidableEq, Repr

/-- The returned tokens dict. -/
structure Tokens where
  total : Int
  input : Int
  output : Int
  reasoning : Int
  cache : CacheTokens
deriving DecidableEq, Repr

/-- The result of calculate_usage. -/
structure UsageResult where
  cost : Int
  tokens : Tokens
deriving DecidableEq, Repr

/-- SessionManager.calculate_usage.  The final `cost = safe(Decimal(0) + ...)`
feeds a Decimal to safe(); a Decimal is not an instance of int or float,
so safe() returns 0 — the Decimal sum is nevertheless spelled out below
to mirror the source expression. -/
def calculate_usage (model : ModelDesc) (usage : Usage) (md : Metadata) : UsageResult :=
  let outputT := output_tokens usage
  let reasoningT := reasoning_tokens usage
  let cacheR := cache_read usage
  let cacheW := cache_write md
  let adjusted := adjusted_input usage md
  let total : Int :=
    if isCacheExcludedFamily model then adjusted + outputT + cacheR + cacheW
    else safe (uget usage.totalTokens)
  let tokens : Tokens :=
    { total := total
      input := adjusted
      output := outputT
      reasoning := reasoningT
      cache := { write := cacheW, read := cacheR } }
  let costInfo : CostRates :=
    if tokens.input + tokens.cache.read > 200000 then
      (model.cost.experimentalOver200K).getD model.cost.base
    else model.cost.base
  let costSum : ℚ :=
    (0 : ℚ)
    + (tokens.input : ℚ) * costInfo.input / 1000000
    + (tokens.output : ℚ) * costInfo.output / 1000000
    + (tokens.cache.read : ℚ) * costInfo.cacheRead / 1000000
    + (tokens.cache.write : ℚ) * costInfo.cacheWrite / 1000000
    + (tokens.reasoning : ℚ) * costInfo.output / 1000000
  { cost := safe (PyNum.vdec costSum), tokens := tokens }

/-! ## Deferred effects

Two Database classes exist.  src/opencode/store/db.py keeps a
transaction-local effect list that is run after commit and dropped when
the transaction raises.  src/session/manager.py keeps a class-level
`_effects` list: `Database.use` appends to it while the body runs but its
rollback path never clears it, and `Database.execute_effects` (called by
SessionManager operations after a successful `Database.use`) drains
whatever the list holds at that moment.

Effects are identified by Nat; an operation body is abstracted to the
list of effects it registers plus whether it commits or raises. -/

/-- State of src/session/manager.py Database: the class-level `_effects`
queue plus a log of the effects that actually ran. -/
structure EffectState where
  queued : List Nat := []
  executed : List Nat := []
deriving DecidableEq, Repr

/-- Database.effect (manager.py): append to the class-level list. -/
def managerEffect (e : Nat) (s : EffectState) : EffectState :=
  { s with queued := s.queued ++ [e] }

/-- Database.execute_effects (manager.py): copy the list, clear it, run
every entry. -/
def execute_effects (s : EffectState) : EffectState :=
  { queued := [], executed := s.executed ++ s.queued }

/-- Database.use (manager.py): the body registers `registers` via
Database.effect, then the transaction commits or raises.  Both branches
leave the class-level queue holding the registered effects — the except
branch only rolls back the SQL session.  The returned Bool is whether
the call returned normally. -/
def managerUse (registers : List Nat) (commits : Bool) (s : EffectState) :
    EffectState × Bool :=
  (registers.foldl (fun acc e => managerEffect e acc) s, commits)

/-- A SessionManager store operation: `Database.use(_op)` followed by
`Database.execute_effects()`; when use raises, the exception propagates
before execute_effects is reached. -/
def managerOp (registers : List Nat) (commits : Bool) (s : EffectState) : EffectState :=
  let used := managerUse registers commits s
  if used.2 then execute_effects used.1 else used.1

/-- Database.transaction (src/opencode/store/db.py): effects live in a
local list; they run iff the callback returns and the commit succeeds,
and are discarded with the context on rollback.  Input and output are
the log of executed effects. -/
def dbTransaction (registers : List Nat) (commits : Bool) (executedLog : List Nat) :
    List Nat :=
  if commits then executedLog ++ registers else executedLog

/-! ## Tool registry (src/opencode/tool/tool.py) -/

/-- A JSON-ish Python value for tool arguments and enum entries. -/
inductive JsonVal where
  | null
  | vbool (b : Bool)
  | vint (i : Int)
  | vstr (s : String)
  | varr (elems : List JsonVal)
  | vobj (fields : List (String × JsonVal))
deriving BEq, Repr

/-- isinstance(value, str). -/
def isinstStr : JsonVal → Bool
  | JsonVal.vstr _ => true
  | _ => false

/-- isinstance(value, (int, float)) — a Python bool is an instance of
int, so it passes this check. -/
def isinstNum : JsonVal → Bool
  | JsonVal.vint _ => true
  | JsonVal.vbool _ => true
  | _ => false

/-- isinstance(value, bool). -/
def isinstBool : JsonVal → Bool
  | JsonVal.vbool _ => true
  | _ => false

/-- isinstance(value, list). -/
def isinstArr : JsonVal → Bool
  | JsonVal.varr _ => true
  | _ => false

/-- isinstance(value, dict). -/
def isinstObj : JsonVal → Bool
  | JsonVal.vobj _ => true
  | _ => false

/-- ToolParameter dataclass (the description and default fields play no
role in validation and are omitted). -/
structure ToolParameter where
  name : String
  type : String
  required : Bool := false
  enum : Option (List JsonVal) := none

/-- ToolDefinition dataclass. -/
structure ToolDefinition where
  name : String
  description : String := ""
  parameters : List ToolParameter := []

/-- The structured content of the (False, message) results of
BaseTool.validate_params. -/
inductive ValidationError where
  | missingParam (name : String)
  | wrongType (name : String) (expected : String)
  | notInEnum (name : String)
deriving DecidableEq, Repr

/-- BaseTool.validate_params: walk the parameters in declaration order;
fail on the first missing required parameter, wrong primitive type, or
enum miss.  `pyEq` stands for Python `==`, used by the `value not in
param.enum` membership test; an empty enum list is falsy and skips the
test.  Returns none when validation passes ((True, None) in the
source). -/
def validate_params (pyEq : JsonVal → JsonVal → Bool)
    (params : List ToolParameter) (kwargs : List (String × JsonVal)) :
    Option ValidationError :=
  match params with
  | [] => none
  | p :: rest =>
    if p.required && (kwargs.lookup p.name).isNone then
      some (ValidationError.missingParam p.name)
    else
      match kwargs.lookup p.name with
      | none => validate_params pyEq rest kwargs
      | some value =>
        if p.type == "string" && !isinstStr value then
          some (ValidationError.wrongType p.name "string")
        else if p.type == "number" && !isinstNum value then
          some (ValidationError.wrongType p.name "number")
        else if p.type == "boolean" && !isinstBool value then
          some (ValidationError.wrongType p.name "boolean")
        else if p.type == "array" && !isinstArr value then
          some (ValidationError.wrongType p.name "array")
        else if p.type == "object" && !isinstObj value then
          some (ValidationError.wrongType p.name "object")
        else
          match p.enum with
          | some es =>
            if !es.isEmpty && !(es.any (fun e => pyEq value e)) then
              some (ValidationError.notInEnum p.name)
            else validate_params pyEq rest kwargs
          | none => validate_params pyEq rest kwargs

/-- ToolStatus enum of tool.py. -/
inductive PyToolStatus where
  | success
  | error
  | pending
deriving DecidableEq, Repr

/-- ToolResult dataclass (metadata, title and attachments omitted). -/
structure ToolResult where
  tool_name : String
  status : PyToolStatus
  content : Option String := none
  error : Option String := none
deriving DecidableEq, Repr

/-- A registered tool: its definition and its executor (the execution
context is irrelevant to dispatch and is abstracted away; the executor
is a pure function of the keyword arguments). -/
structure RegisteredTool where
  definition : ToolDefinition
  execute : List (String × JsonVal) → ToolResult

/-- ToolRegistry.execute: look the tool up by name and call its executor
directly — the source performs no argument validation on this path. -/
def ToolRegistry.execute (tools : List (String × RegisteredTool))
    (name : String) (kwargs : List (String × JsonVal)) : ToolResult :=
  match tools.lookup name with
  | none =>
    { tool_name := name
      status := PyToolStatus.error
      content := none
      error := some ("Unknown tool: " ++ name) }
  | some t => t.execute kwargs

/-! ## Session forking (src/session/manager.py, SessionManager.fork)

`fork` reads the parent messages through `SessionManager.list_messages`,
whose SELECT is ordered by `time_created` descending, then walks that
list breaking at the first message whose id compares `>=` the cutoff id
(Python string comparison, i.e. lexicographic by code point — the order
on Lean String).  Messages are modelled by the fields fork manipulates. -/

inductive Role where
  | user
  | assistant
deriving DecidableEq, Repr

structure MsgInfo where
  id : String
  role : Role
  parentID : Option String := none
  timeCreated : Nat := 0
deriving DecidableEq, Repr

/-- Stable insertion into a list sorted by descending timeCreated. -/
def insertByTimeDesc (m : MsgInfo) : List MsgInfo → List MsgInfo
  | [] => [m]
  | x :: xs =>
    if x.timeCreated ≥ m.timeCreated then x :: insertByTimeDesc m xs
    else m :: x :: xs

/-- SessionManager.list_messages: the stored messages ordered by
`time_created` descending (newest first). -/
def list_messages (msgs : List MsgInfo) : List MsgInfo :=
  msgs.foldr insertByTimeDesc []

/-- Lexicographic comparison of code-point sequences: Python `<` on
strings. -/
def pyStrLtList : List Char → List Char → Bool
  | [], [] => false
  | [], _ :: _ => true
  | _ :: _, [] => false
  | c :: cs, d :: ds =>
    if c.toNat < d.toNat then true
    else if d.toNat < c.toNat then false
    else pyStrLtList cs ds

/-- Python `a < b` on strings. -/
def pyStrLt (a b : String) : Bool := pyStrLtList a.data b.data

/-- The `if message_id and msg["info"]["id"] >= message_id: break`
condition: the cutoff must be truthy (not None, not empty) and the id
must compare greater-or-equal as a Python string (`>=` is the negation
of `<` on this total order). -/
def cutoffBreak (message_id : Option String) (id : String) : Bool :=
  match message_id with
  | some c => (!(c == "")) && !(pyStrLt id c)
  | none => false

/-- The message-cloning walk of SessionManager.fork: iterate the listed
messages, stop at the break condition, give each clone a fresh id
(`freshId k` stands for the k-th generate_message_id of the walk), record
the old-to-new pair in id_map, and remap a truthy assistant parentID
through `id_map.get` (None when the parent was not cloned).  Clones are
upserted into the child in walk order. -/
def forkGo (freshId : Nat → String) (message_id : Option String) :
    List MsgInfo → List (String × String) → Nat → List MsgInfo
  | [], _, _ => []
  | m :: rest, idMap, k =>
    if cutoffBreak message_id m.id then []
    else
      let newId := freshId k
      let idMap2 := (m.id, newId) :: idMap
      let newParent :=
        if m.role == Role.assistant && optStrTruthy m.parentID then
          match m.parentID with
          | some p => idMap2.lookup p
          | none => none
        else m.parentID
      { m with id := newId, parentID := newParent } ::
        forkGo freshId message_id rest idMap2 (k + 1)

/-- The messages SessionManager.fork copies into the child session. -/
def fork_messages (freshId : Nat → String) (parentMsgs : List MsgInfo)
    (message_id : Option String) : List MsgInfo :=
  forkGo freshId message_id (list_messages parentMsgs) [] 0

/-! ## Agent prompt loop (src/opencode/session/prompt.py)

The loop is embedded as a state-passing function.  Message and part ids
come from counters (the id service is abstracted to an injective
supply); the store is the list of messages in creation order (event-loop
timestamps increase within a run, so `list_messages` is its reverse);
every update_message / update_part call is logged in a write trace.
Provider behaviour is a function from the call index to a response, and
tool execution is a function from the call to its outcome (a result, or
the exception the `except` branch catches — note the source invokes
`ToolRegistry.execute(name, **arguments)` without the registry's `ctx`
parameter, so in practice that call raises TypeError, which lands in the
same branch).  Token bookkeeping on the assistant message is not part of
any claim and is left out of the message record. -/

/-- An LMsg carries the loop-relevant fields of a stored message,
including the two fields filter_compacted inspects. -/
structure LMsg where
  id : Nat
  role : Role
  parentID : Option Nat := none
  finish : Option String := none
  summary : Bool := false
  hasCompactionPart : Bool := false
deriving DecidableEq, Repr

/-- Truthiness of a finish value (None and "" are falsy). -/
def finishTruthy : Option String → Bool := optStrTruthy

/-- The walk of message_v2.filter_compacted over the descending message
list: append every message; after appending a user message whose id is
in `completed` and which carries a compaction part, stop; a completed
summary assistant adds its parentID to `completed` (a missing parentID
adds the sentinel "" which matches no id, so it is skipped here). -/
def filterCompactedGo : List LMsg → List Nat → List LMsg
  | [], _ => []
  | m :: rest, completed =>
    if m.role == Role.user && completed.contains m.id && m.hasCompactionPart then
      [m]
    else
      let completed2 :=
        if m.role == Role.assistant && m.summary && finishTruthy m.finish then
          match m.parentID with
          | some p => p :: completed
          | none => completed
        else completed
      m :: filterCompactedGo rest completed2

/-- message_v2.filter_compacted: the walk above followed by the final
`result.reverse()` — on a descending input the output is ascending. -/
def filter_compacted (messages : List LMsg) : List LMsg :=
  (filterCompactedGo messages []).reverse

/-- The state values a tool part is written with (message_v2 ToolState). -/
inductive ToolPartStatus where
  | pending
  | running
  | completed
  | error
deriving DecidableEq, Repr

/-- One update_message / update_part call, as logged by the loop
embedding (the projection of the written record that the claims are
about). -/
inductive StoreWrite where
  | msgWrite (id : Nat) (role : Role) (finish : Option String)
  | textPart (partId : Nat) (messageId : Nat) (text : String)
  | toolPartWrite (partId : Nat) (messageId : Nat) (callId : String)
      (tool : String) (status : ToolPartStatus)
deriving DecidableEq, Repr

structure ToolCall where
  id : String
  name : String
deriving DecidableEq, Repr

/-- Outcome of `await ToolRegistry.execute(...)` inside the loop: a
returned result with its content string, or a raised exception. -/
inductive ToolExecResult where
  | ok (content : String)
  | exn (err : String)
deriving DecidableEq, Repr

structure ProviderResponse where
  content : Option String := none
  toolCalls : List ToolCall := []

structure LoopState where
  msgs : List LMsg := []
  nextMsgId : Nat := 0
  nextPartId : Nat := 0
  calls : Nat := 0
  trace : List StoreWrite := []
deriving Repr

/-- SessionManager.update_message / update_part: update in place when
the id exists, insert otherwise. -/
def upsertMsg (msgs : List LMsg) (m : LMsg) : List LMsg :=
  if msgs.any (fun x => x.id == m.id) then
    msgs.map (fun x => if x.id == m.id then m else x)
  else msgs ++ [m]

/-- The write sequence the tool-call block of SessionPrompt.loop emits
for one model tool call: the part is created directly in running state;
a returned result updates it to completed, appends a synthetic user
message, and attaches the textual result to
`list_messages(session_id)[-1]` — the last element of the descending
list, i.e. the oldest message (`oldestId`); a raised exception updates
the part to error. -/
def runToolCallWrites (toolExec : ToolCall → ToolExecResult)
    (assistantId oldestId : Nat) (tc : ToolCall)
    (pid newUserMsgId resultPartId : Nat) : List StoreWrite :=
  StoreWrite.toolPartWrite pid assistantId tc.id tc.name ToolPartStatus.running ::
    (match toolExec tc with
     | ToolExecResult.ok content =>
       [ StoreWrite.toolPartWrite pid assistantId tc.id tc.name ToolPartStatus.completed,
         StoreWrite.msgWrite newUserMsgId Role.user none,
         StoreWrite.textPart resultPartId oldestId
           ("Tool " ++ tc.name ++ " result: " ++ content) ]
     | ToolExecResult.exn _ =>
       [ StoreWrite.toolPartWrite pid assistantId tc.id tc.name ToolPartStatus.error ])

/-- The state effect of that block: consumed ids and the appended
synthetic user message, with the writes above added to the trace. -/
def runToolCall (toolExec : ToolCall → ToolExecResult) (assistantId : Nat)
    (tc : ToolCall) (st : LoopState) : LoopState :=
  let oldestId := match st.msgs.head? with
    | some m => m.id
    | none => 0
  let writes := runToolCallWrites toolExec assistantId oldestId tc
    st.nextPartId st.nextMsgId (st.nextPartId + 1)
  match toolExec tc with
  | ToolExecResult.ok _ =>
    { st with
      msgs := upsertMsg st.msgs { id := st.nextMsgId, role := Role.user }
      nextMsgId := st.nextMsgId + 1
      nextPartId := st.nextPartId + 2
      trace := st.trace ++ writes }
  | ToolExecResult.exn _ =>
    { st with
      nextPartId := st.nextPartId + 1
      trace := st.trace ++ writes }

inductive LoopRes where
  | ok (msgId : Nat)
  | exc (msg : String)
deriving DecidableEq, Repr

/-- Outcome of one pass through the while body: either the loop leaves
(`done`) or it continues with the updated state (`next`). -/
inductive IterStep where
  | done (res : LoopRes) (st : LoopState)
  | next (st : LoopState)

/-- One pass through the while body of SessionPrompt.loop.  Every
`break` of the source falls through to the trailing
`raise Exception("Max iterations reached")`, so the abort break and the
finished break produce that exception; only the no-tool-calls branch
returns a message. -/
def loopIter (provider : Nat → ProviderResponse)
    (toolExec : ToolCall → ToolExecResult) (abort : Bool)
    (st : LoopState) : IterStep :=
    if abort then IterStep.done (LoopRes.exc "Max iterations reached") st
    else
      let messages := filter_compacted st.msgs.reverse
      let lastUser := messages.reverse.find? (fun m => m.role == Role.user)
      let lastAssistant := messages.reverse.find? (fun m => m.role == Role.assistant)
      match lastUser with
      | none => IterStep.done (LoopRes.exc "No user message found in stream") st
      | some lu =>
        if (match lastAssistant with
            | some la =>
              finishTruthy la.finish && !(la.finish == some "tool-calls")
                && !(la.finish == some "unknown")
            | none => false) then
          IterStep.done (LoopRes.exc "Max iterations reached") st
        else
          let aid := st.nextMsgId
          let assistant : LMsg := { id := aid, role := Role.assistant, parentID := some lu.id }
          let st1 := { st with
            msgs := upsertMsg st.msgs assistant
            nextMsgId := aid + 1
            trace := st.trace ++ [StoreWrite.msgWrite aid Role.assistant none] }
          let resp := provider st1.calls
          let st2 := { st1 with calls := st1.calls + 1 }
          let st3 :=
            match resp.content with
            | some c =>
              if !(c == "") then
                { st2 with
                  nextPartId := st2.nextPartId + 1
                  trace := st2.trace ++ [StoreWrite.textPart st2.nextPartId aid c] }
              else st2
            | none => st2
          if !resp.toolCalls.isEmpty then
            let st4 := { st3 with
              msgs := upsertMsg st3.msgs { assistant with finish := some "tool-calls" }
              trace := st3.trace ++ [StoreWrite.msgWrite aid Role.assistant (some "tool-calls")] }
            let st5 := resp.toolCalls.foldl (fun acc tc => runToolCall toolExec aid tc acc) st4
            IterStep.next st5
          else
            let st4 := { st3 with
              msgs := upsertMsg st3.msgs { assistant with finish := some "stop" }
              trace := st3.trace ++ [StoreWrite.msgWrite aid Role.assistant (some "stop")] }
            IterStep.done (LoopRes.ok aid) st4

/-- The while loop of SessionPrompt.loop, recursing on the remaining
step budget (`max_steps - step`); an exhausted budget reaches the
trailing `raise Exception("Max iterations reached")`. -/
def loopGo (provider : Nat → ProviderResponse)
    (toolExec : ToolCall → ToolExecResult) (abort : Bool) :
    Nat → LoopState → LoopRes × LoopState
  | 0, st => (LoopRes.exc "Max iterations reached", st)
  | fuel + 1, st =>
    match loopIter provider toolExec abort st with
    | IterStep.done r s => (r, s)
    | IterStep.next s => loopGo provider toolExec abort fuel s

/-- The step budget: `max_steps = 50  # Default max iterations`. -/
def max_steps : Nat := 50

/-- The state sequence written for one tool part id within a write
trace. -/
def toolPartStatuses (writes : List StoreWrite) (pid : Nat) : List ToolPartStatus :=
  writes.filterMap (fun w =>
    match w with
    | StoreWrite.toolPartWrite p _ _ _ s => if p == pid then some s else none
    | _ => none)

/-- Outcomes surfaced by SessionPrompt.prompt. -/
inductive PromptOutcome where
  | notFound (sid : Nat)
  | busyErr (sid : Nat)
  | ok (msgId : Nat)
  | exc (msg : String)
deriving DecidableEq, Repr

/-- SessionPrompt.assert_not_busy: raises SessionBusyError carrying the
session id iff the session is in _busy_sessions. -/
def assert_not_busy (busy : List Nat) (sid : Nat) : Option PromptOutcome :=
  if busy.contains sid then some (PromptOutcome.busyErr sid) else none

/-- State handled by SessionPrompt: the known sessions, the
_busy_sessions keys, and the message store. -/
structure PromptState where
  sessions : List Nat := []
  busy : List Nat := []
  loop : LoopState := {}

/-- SessionPrompt.loop including its busy bookkeeping:
`self._busy_sessions[session_id] = abort_event` unconditionally
installs the key (overwriting an existing entry), and the `finally`
block deletes it. -/
def loopRun (provider : Nat → ProviderResponse)
    (toolExec : ToolCall → ToolExecResult) (abort : Bool) (sid : Nat)
    (st : PromptState) : PromptOutcome × PromptState :=
  let busy1 := if st.busy.contains sid then st.busy else st.busy ++ [sid]
  let r := loopGo provider toolExec abort max_steps st.loop
  let busy2 := busy1.filter (fun x => !(x == sid))
  ((match r.1 with
    | LoopRes.ok m => PromptOutcome.ok m
    | LoopRes.exc e => PromptOutcome.exc e),
   { st with busy := busy2, loop := r.2 })

/-- SessionPrompt.prompt for a plain submission (input.tools = None,
no_reply = False): look the session up, upsert the new user message,
and run the loop.  The source contains assert_not_busy but never calls
it on this path, so no busy check happens before the loop claims the
session. -/
def prompt (provider : Nat → ProviderResponse)
    (toolExec : ToolCall → ToolExecResult) (abort : Bool) (sid : Nat)
    (st : PromptState) : PromptOutcome × PromptState :=
  if !(st.sessions.contains sid) then (PromptOutcome.notFound sid, st)
  else
    let uid := st.loop.nextMsgId
    let st1 := { st with loop := { st.loop with
      msgs := upsertMsg st.loop.msgs { id := uid, role := Role.user }
      nextMsgId := uid + 1
      trace := st.loop.trace ++ [StoreWrite.msgWrite uid Role.user none] } }
    loopRun provider toolExec abort sid st1

/-! ## Concrete scenarios -/

/-- An Anthropic-adapter model descriptor. -/
def anthModel : ModelDesc := { apiNpm := some "@ai-sdk/anthropic" }

/-- A usage record with reasoning tokens: 10 input, 2 output, 5 reasoning. -/
def reasoningUsage : Usage :=
  { inputTokens := some (PyNum.vint 10)
    outputTokens := some (PyNum.vint 2)
    reasoningTokens := some (PyNum.vint 5) }

/-- Metadata carrying a non-empty anthropic dict. -/
def anthMeta : Metadata := { anthropic := some { extraKeys := true } }

/-- A usage record reporting a negative input count. -/
def negUsage : Usage := { inputTokens := some (PyNum.vint (-5)) }

/-- Parent session u1, a1, u2, a2 with counter-based message ids and
increasing creation times; each assistant answers the preceding user. -/
def forkParentMsgs : List MsgInfo :=
  [ { id := "message_1_aaaaaaaa", role := Role.user, timeCreated := 1 },
    { id := "message_2_bbbbbbbb", role := Role.assistant,
      parentID := some "message_1_aaaaaaaa", timeCreated := 2 },
    { id := "message_3_cccccccc", role := Role.user, timeCreated := 3 },
    { id := "message_4_dddddddd", role := Role.assistant,
      parentID := some "message_3_cccccccc", timeCreated := 4 } ]

/-- Fork cutoff at u2: everything strictly before u2 should be cloned. -/
def forkCutoff : String := "message_3_cccccccc"

/-- A registered read tool with one required string parameter whose
executor reports success. -/
def readTool : RegisteredTool :=
  { definition :=
      { name := "read"
        parameters := [{ name := "filePath", type := "string", required := true }] }
    execute := fun _ =>
      { tool_name := "read", status := PyToolStatus.success, content := some "executed" } }

/-- A provider that answers with text and no tool calls. -/
def contentProvider : Nat → ProviderResponse := fun _ => { content := some "4" }

/-- A provider that always returns one tool call. -/
def toolCallProvider : Nat → ProviderResponse :=
  fun _ => { toolCalls := [{ id := "call_0", name := "t" }] }

/-- Tool execution that raises (as the missing-ctx dispatch in the
source does). -/
def raisingExec : ToolCall → ToolExecResult := fun _ => ToolExecResult.exn "TypeError"

/-- Tool execution that returns an empty successful result. -/
def emptyOkExec : ToolCall → ToolExecResult := fun _ => ToolExecResult.ok ""

/-- A loop state holding one user message. -/
def oneUserState : LoopState := { msgs := [{ id := 0, role := Role.user }], nextMsgId := 1 }

/-- A tool call as the loop receives it from the provider. -/
def sampleCall : ToolCall := { id := "call_1", name := "read" }

/-- A deny rule guarded by a glob pattern. -/
def c10Rule : PermissionRule :=
  { tool := "write", level := PermissionLevel.deny, pattern := some "*.txt" }

/-- A glob matcher that accepts everything. -/
def alwaysMatch : String → String → Bool := fun _ _ => true

/-- A glob matcher that rejects everything. -/
def neverMatch : String → String → Bool := fun _ _ => false

/-! ## Helper lemmas -/

/-- The pattern test of PermissionRule.matches is skipped for a falsy
context, so the result does not depend on the glob matcher. -/
theorem matches_ctx_indep (f g : String → String → Bool) (now : Int) (tool : String)
    {context : Option (List (String × String))} (hctx : ctxTruthy context = false)
    (r : PermissionRule) :
    r.matches f now tool context = r.matches g now tool context := by
  simp [PermissionRule.matches, hctx]

/-- A rule without pattern and expiry does not match a request for a
different tool. -/
theorem matches_ne_tool (f : String → String → Bool) (now : Int)
    {name tool : String} (h : ¬ tool = name)
    (lvl : PermissionLevel)
    (context : Option (List (String × String))) :
    PermissionRule.matches f now { tool := name, level := lvl } tool context = false := by
  have hbne : (name != tool) = true := by
    simp [bne_iff_ne]
    exact fun e => h e.symm
  simp [PermissionRule.matches, hbne]

/-- runToolCall never touches the provider-call counter. -/
theorem runToolCall_calls (toolExec : ToolCall → ToolExecResult)
    (aid : Nat) (tc : ToolCall) (st : LoopState) :
    (runToolCall toolExec aid tc st).calls = st.calls := by
  unfold runToolCall
  cases h : toolExec tc <;> simp [h]

/-- Folding runToolCall over the returned tool calls never touches the
provider-call counter. -/
theorem foldl_runToolCall_calls (toolExec : ToolCall → ToolExecResult) (aid : Nat) :
    ∀ (l : List ToolCall) (st : LoopState),
      (l.foldl (fun acc tc => runToolCall toolExec aid tc acc) st).calls = st.calls := by
  intro l
  induction l with
  | nil => intro st; rfl
  | cons a t ih => intro st; rw [List.foldl_cons, ih, runToolCall_calls]

/-- A pass through the while body that leaves the loop performs at most
one provider call. -/
theorem loopIter_calls_done (provider : Nat → ProviderResponse)
    (toolExec : ToolCall → ToolExecResult) (abort : Bool) (st : LoopState)
    (r : LoopRes) (s : LoopState)
    (h : loopIter provider toolExec abort st = IterStep.done r s) :
    s.calls ≤ st.calls + 1 := by
  unfold loopIter at h
  split at h
  · cases h; omega
  · dsimp only at h
    cases hfu : List.find? (fun m => m.role == Role.user) (filter_compacted st.msgs.reverse).reverse with
    | none => rw [hfu] at h; cases h; omega
    | some lu =>
      rw [hfu] at h
      dsimp only at h
      repeat' split at h
      all_goals cases h
      all_goals simp_all [foldl_runToolCall_calls]

/-- A pass through the while body that continues performs at most one
provider call. -/
theorem loopIter_calls_next (provider : Nat → ProviderResponse)
    (toolExec : ToolCall → ToolExecResult) (abort : Bool) (st : LoopState)
    (s : LoopState)
    (h : loopIter provider toolExec abort st = IterStep.next s) :
    s.calls ≤ st.calls + 1 := by
  unfold loopIter at h
  split at h
  · cases h
  · dsimp only at h
    cases hfu : List.find? (fun m => m.role == Role.user) (filter_compacted st.msgs.reverse).reverse with
    | none => rw [hfu] at h; cases h
    | some lu =>
      rw [hfu] at h
      dsimp only at h
      repeat' split at h
      all_goals cases h
      all_goals simp_all [foldl_runToolCall_calls]

/-- The while loop performs at most `fuel` provider calls. -/
theorem loopGo_calls_le (provider : Nat → ProviderResponse)
    (toolExec : ToolCall → ToolExecResult) (abort : Bool) :
    ∀ (fuel : Nat) (st : LoopState),
      ((loopGo provider toolExec abort fuel st).2).calls ≤ st.calls + fuel := by
  intro fuel
  induction fuel with
  | zero => intro st; simp [loopGo]
  | succ n ih =>
    intro st
    unfold loopGo
    cases hit : loopIter provider toolExec abort st with
    | done r s =>
      have h := loopIter_calls_done provider toolExec abort st r s hit
      simp only
      omega
    | next s =>
      have h := loopIter_calls_next provider toolExec abort st s hit
      simp only
      have h2 := ih s
      omega

/-! ## Claim theorems -/

/-- C1 (counterexample): for the Anthropic-family model descriptor and a
usage record with 5 reasoning tokens, calculate_usage returns
total = 12 while input + output + reasoning + cache.read + cache.write
= 17 — the claimed identity fails because the source omits reasoning
tokens from the cache-excluded total. -/
theorem calculate_usage_total_counterexample :
    isCacheExcludedFamily anthModel = true ∧
    (calculate_usage anthModel reasoningUsage anthMeta).tokens.total = 12 ∧
    (calculate_usage anthModel reasoningUsage anthMeta).tokens.input
      + (calculate_usage anthModel reasoningUsage anthMeta).tokens.output
      + (calculate_usage anthModel reasoningUsage anthMeta).tokens.reasoning
      + (calculate_usage anthModel reasoningUsage anthMeta).tokens.cache.read
      + (calculate_usage anthModel reasoningUsage anthMeta).tokens.cache.write = 17 ∧
    ¬ ((calculate_usage anthModel reasoningUsage anthMeta).tokens.total =
       (calculate_usage anthModel reasoningUsage anthMeta).tokens.input
       + (calculate_usage anthModel reasoningUsage anthMeta).tokens.output
       + (calculate_usage anthModel reasoningUsage anthMeta).tokens.reasoning
       + (calculate_usage anthModel reasoningUsage anthMeta).tokens.cache.read
       + (calculate_usage anthModel reasoningUsage anthMeta).tokens.cache.write) := by
  refine ⟨by decide, by decide, by decide, by decide⟩

/-- C1 (amended): for every cache-excluded-family model descriptor and
every usage record and metadata, the returned total equals input +
output + cache.read + cache.write (reasoning tokens are not part of the
total). -/
theorem calculate_usage_total_cache_excluded (model : ModelDesc) (usage : Usage)
    (md : Metadata) (h : isCacheExcludedFamily model = true) :
    (calculate_usage model usage md).tokens.total =
      (calculate_usage model usage md).tokens.input
      + (calculate_usage model usage md).tokens.output
      + (calculate_usage model usage md).tokens.cache.read
      + (calculate_usage model usage md).tokens.cache.write := by
  simp [calculate_usage, h]

/-- Witness for calculate_usage_total_cache_excluded at the Anthropic
scenario. -/
theorem calculate_usage_total_cache_excluded_witness :
    isCacheExcludedFamily anthModel = true ∧
    (calculate_usage anthModel reasoningUsage anthMeta).tokens.total =
      (calculate_usage anthModel reasoningUsage anthMeta).tokens.input
      + (calculate_usage anthModel reasoningUsage anthMeta).tokens.output
      + (calculate_usage anthModel reasoningUsage anthMeta).tokens.cache.read
      + (calculate_usage anthModel reasoningUsage anthMeta).tokens.cache.write :=
  ⟨by decide, calculate_usage_total_cache_excluded anthModel reasoningUsage anthMeta (by decide)⟩

/-- C2: forking the parent session u1, a1, u2, a2 at cutoff u2 clones
nothing — list_messages returns the messages newest-first and the walk
breaks at the first id that compares >= the cutoff, although two
messages lie strictly before the cutoff. -/
theorem fork_descending_cutoff_clones_nothing :
    fork_messages (fun k => "message_fork_" ++ toString k) forkParentMsgs (some forkCutoff) = [] ∧
    (forkParentMsgs.filter (fun m => pyStrLt m.id forkCutoff)).length = 2 := by
  refine ⟨by decide, by decide⟩

/-- C3: submitting a prompt for session 7 while 7 is already marked busy
does not raise SessionBusy — the prompt path never calls
assert_not_busy, runs the loop and returns its answer — although
assert_not_busy itself would have raised. -/
theorem prompt_busy_not_checked :
    (prompt contentProvider raisingExec false 7 { sessions := [7], busy := [7] }).1 =
      PromptOutcome.ok 1 ∧
    (prompt contentProvider raisingExec false 7 { sessions := [7], busy := [7] }).1 ≠
      PromptOutcome.busyErr 7 ∧
    assert_not_busy [7] 7 = some (PromptOutcome.busyErr 7) := by
  refine ⟨by decide, by decide, by decide⟩

/-- C4 (counterexample): a successful tool call writes the state
sequence [running, completed], which is a prefix of neither
[pending, running, completed] nor [pending, running, error] — the part
is created directly in running state and pending is never written. -/
theorem tool_part_no_pending_counterexample :
    toolPartStatuses (runToolCallWrites (fun _ => ToolExecResult.ok "hello") 1 0
      sampleCall 5 2 6) 5 = [ToolPartStatus.running, ToolPartStatus.completed] ∧
    List.isPrefixOf [ToolPartStatus.running, ToolPartStatus.completed]
      [ToolPartStatus.pending, ToolPartStatus.running, ToolPartStatus.completed] = false ∧
    List.isPrefixOf [ToolPartStatus.running, ToolPartStatus.completed]
      [ToolPartStatus.pending, ToolPartStatus.running, ToolPartStatus.error] = false := by
  refine ⟨by decide, by decide, by decide⟩

/-- C4 (amended): for every tool call handled by the loop, the state
sequence written for its tool part is exactly [running, completed] or
[running, error]. -/
theorem tool_part_statuses_running_then_terminal
    (toolExec : ToolCall → ToolExecResult) (assistantId oldestId : Nat)
    (tc : ToolCall) (pid newUserMsgId resultPartId : Nat) :
    toolPartStatuses (runToolCallWrites toolExec assistantId oldestId tc
        pid newUserMsgId resultPartId) pid
      = [ToolPartStatus.running, ToolPartStatus.completed] ∨
    toolPartStatuses (runToolCallWrites toolExec assistantId oldestId tc
        pid newUserMsgId resultPartId) pid
      = [ToolPartStatus.running, ToolPartStatus.error] := by
  cases h : toolExec tc with
  | ok c => left; simp [runToolCallWrites, toolPartStatuses, h]
  | exn e => right; simp [runToolCallWrites, toolPartStatuses, h]

/-- C5: an effect registered by a rolled-back manager.py store operation
stays in the class-level queue and is executed by the next successful
operation (executed = [1, 2]), whereas db.py Database.transaction
discards effects on rollback. -/
theorem manager_effects_survive_rollback :
    (managerOp [1] false {}).executed = [] ∧
    (managerOp [1] false {}).queued = [1] ∧
    (managerOp [2] true (managerOp [1] false {})).executed = [1, 2] ∧
    dbTransaction [1] false [] = [] := by
  refine ⟨rfl, rfl, rfl, rfl⟩

/-- C6: calling ToolRegistry.execute for the read tool with no arguments
— missing the required filePath — invokes the executor and returns its
successful result; validate_params would have reported the missing
parameter, but the registry never calls it. -/
theorem registry_execute_skips_validation :
    validate_params (fun a b => a == b) readTool.definition.parameters [] =
      some (ValidationError.missingParam "filePath") ∧
    ToolRegistry.execute [("read", readTool)] "read" [] =
      { tool_name := "read", status := PyToolStatus.success
        content := some "executed", error := none } ∧
    (ToolRegistry.execute [("read", readTool)] "read" []).status ≠ PyToolStatus.error := by
  refine ⟨by decide, by decide, by decide⟩

set_option maxRecDepth 8000

/-- C7 (counterexample): with a provider that always returns a tool
call, the loop makes exactly 50 provider calls and then raises the
exception "Max iterations reached"; no assistant part with that text is
written and no message is written with finish = length. -/
theorem loop_exhaustion_raises_counterexample :
    (loopGo toolCallProvider emptyOkExec false max_steps oneUserState).1 =
      LoopRes.exc "Max iterations reached" ∧
    (loopGo toolCallProvider emptyOkExec false max_steps oneUserState).2.calls = 50 ∧
    ((loopGo toolCallProvider emptyOkExec false max_steps oneUserState).2.trace.all (fun w =>
      match w with
      | StoreWrite.msgWrite _ _ f => !(f == some "length")
      | _ => true)) = true ∧
    ((loopGo toolCallProvider emptyOkExec false max_steps oneUserState).2.trace.all (fun w =>
      match w with
      | StoreWrite.textPart _ _ t => !(t == "Max iterations reached")
      | _ => true)) = true := by
  refine ⟨by decide, by decide, by decide, by decide⟩

/-- C7 (amended): for every provider behaviour, tool behaviour, abort
flag and starting state, the loop of 50 budgeted steps performs at most
50 provider calls, and an exhausted budget raises "Max iterations
reached" leaving the state — and so the write trace — unchanged. -/
theorem loop_call_bound_and_exhaustion (provider : Nat → ProviderResponse)
    (toolExec : ToolCall → ToolExecResult) (abort : Bool) (st : LoopState) :
    ((loopGo provider toolExec abort max_steps st).2).calls ≤ st.calls + 50 ∧
    loopGo provider toolExec abort 0 st = (LoopRes.exc "Max iterations reached", st) := by
  refine ⟨?_, rfl⟩
  have h := loopGo_calls_le provider toolExec abort max_steps st
  simpa [max_steps] using h

/-- C8: with the default rules of a first initialization, check answers
allow for read and search, ask for write, edit, shell and bash, and ask
for every tool matched by no rule — for any glob matcher, time and
context. -/
theorem default_permissions_check (fnmatch : String → String → Bool) (now : Int)
    (context : Option (List (String × String))) (tool : String)
    (h : ¬ tool ∈ ["read", "search", "write", "edit", "shell"]) :
    check_permission fnmatch now [] defaultRules "read" context = PermissionLevel.allow ∧
    check_permission fnmatch now [] defaultRules "search" context = PermissionLevel.allow ∧
    check_permission fnmatch now [] defaultRules "write" context = PermissionLevel.ask ∧
    check_permission fnmatch now [] defaultRules "edit" context = PermissionLevel.ask ∧
    check_permission fnmatch now [] defaultRules "shell" context = PermissionLevel.ask ∧
    check_permission fnmatch now [] defaultRules "bash" context = PermissionLevel.ask ∧
    check_permission fnmatch now [] defaultRules tool context = PermissionLevel.ask := by
  refine ⟨rfl, rfl, rfl, rfl, rfl, rfl, ?_⟩
  simp only [List.mem_cons, List.not_mem_nil, or_false, not_or] at h
  obtain ⟨h1, h2, h3, h4, h5⟩ := h
  have hnone : List.find? (fun r => r.matches fnmatch now tool context)
      defaultRules.reverse = none := by
    rw [List.find?_eq_none]
    intro r hr
    rw [List.mem_reverse] at hr
    simp only [defaultRules, List.mem_cons, List.not_mem_nil, or_false] at hr
    rcases hr with rfl | rfl | rfl | rfl | rfl
    · simp [matches_ne_tool fnmatch now h1]
    · simp [matches_ne_tool fnmatch now h2]
    · simp [matches_ne_tool fnmatch now h3]
    · simp [matches_ne_tool fnmatch now h4]
    · simp [matches_ne_tool fnmatch now h5]
  simp [check_permission, hnone]

/-- Witness for default_permissions_check at tool = "unknown". -/
theorem default_permissions_check_witness :
    ¬ "unknown" ∈ ["read", "search", "write", "edit", "shell"] ∧
    (check_permission alwaysMatch 0 [] defaultRules "read" none = PermissionLevel.allow ∧
     check_permission alwaysMatch 0 [] defaultRules "search" none = PermissionLevel.allow ∧
     check_permission alwaysMatch 0 [] defaultRules "write" none = PermissionLevel.ask ∧
     check_permission alwaysMatch 0 [] defaultRules "edit" none = PermissionLevel.ask ∧
     check_permission alwaysMatch 0 [] defaultRules "shell" none = PermissionLevel.ask ∧
     check_permission alwaysMatch 0 [] defaultRules "bash" none = PermissionLevel.ask ∧
     check_permission alwaysMatch 0 [] defaultRules "unknown" none = PermissionLevel.ask) :=
  ⟨by decide, default_permissions_check alwaysMatch 0 none "unknown" (by decide)⟩

/-- C9 (counterexample): a usage record with inputTokens = -5 yields
tokens.input = -5 — negative counts are not coerced to zero and the
result is negative. -/
theorem calculate_usage_negative_counterexample :
    (calculate_usage {} negUsage {}).tokens.input = -5 ∧
    (calculate_usage {} negUsage {}).tokens.input < 0 := by
  refine ⟨by decide, by decide⟩

/-- C9 (amended): safe() coerces None and the non-finite values to zero
but passes negative finite counts through; when every coerced input is
non-negative and — for metadata that does not mark a cache-excluding
vendor — the input covers the cache counts, every returned token field
is non-negative, and the returned cost is always 0 because the Decimal
sum is not an int or float instance. -/
theorem calculate_usage_nonneg_conditions (model : ModelDesc) (usage : Usage)
    (md : Metadata)
    (h1 : 0 ≤ input_tokens usage) (h2 : 0 ≤ output_tokens usage)
    (h3 : 0 ≤ reasoning_tokens usage) (h4 : 0 ≤ cache_read usage)
    (h5 : 0 ≤ cache_write md) (h6 : 0 ≤ safe (uget usage.totalTokens))
    (h7 : excludes_cached md = true ∨
      cache_read usage + cache_write md ≤ input_tokens usage) :
    0 ≤ (calculate_usage model usage md).tokens.input ∧
    0 ≤ (calculate_usage model usage md).tokens.output ∧
    0 ≤ (calculate_usage model usage md).tokens.reasoning ∧
    0 ≤ (calculate_usage model usage md).tokens.cache.read ∧
    0 ≤ (calculate_usage model usage md).tokens.cache.write ∧
    0 ≤ (calculate_usage model usage md).tokens.total ∧
    (calculate_usage model usage md).cost = 0 ∧
    safe PyNum.vnone = 0 ∧ safe PyNum.vinf = 0 ∧
    safe PyNum.vninf = 0 ∧ safe PyNum.vnan = 0 := by
  have hadj : 0 ≤ adjusted_input usage md := by
    unfold adjusted_input
    by_cases he : excludes_cached md = true
    · simpa [he, safe] using h1
    · simp only [he, if_false]
      rcases h7 with h7 | h7
      · exact absurd h7 he
      · simp only [safe]
        omega
  refine ⟨?_, ?_, ?_, ?_, ?_, ?_, rfl, rfl, rfl, rfl, rfl⟩
  · simpa [calculate_usage] using hadj
  · simpa [calculate_usage] using h2
  · simpa [calculate_usage] using h3
  · simpa [calculate_usage] using h4
  · simpa [calculate_usage] using h5
  · by_cases hf : isCacheExcludedFamily model = true
    · simp only [calculate_usage, hf, if_true]
      have := hadj
      omega
    · simpa [calculate_usage, hf] using h6

/-- Witness for calculate_usage_nonneg_conditions at empty inputs. -/
theorem calculate_usage_nonneg_conditions_witness :
    (excludes_cached ({} : Metadata) = true ∨
      cache_read ({} : Usage) + cache_write ({} : Metadata) ≤ input_tokens ({} : Usage)) ∧
    (0 ≤ (calculate_usage {} {} {}).tokens.input ∧
     0 ≤ (calculate_usage {} {} {}).tokens.output ∧
     0 ≤ (calculate_usage {} {} {}).tokens.reasoning ∧
     0 ≤ (calculate_usage {} {} {}).tokens.cache.read ∧
     0 ≤ (calculate_usage {} {} {}).tokens.cache.write ∧
     0 ≤ (calculate_usage {} {} {}).tokens.total ∧
     (calculate_usage {} {} {}).cost = 0 ∧
     safe PyNum.vnone = 0 ∧ safe PyNum.vinf = 0 ∧
     safe PyNum.vninf = 0 ∧ safe PyNum.vnan = 0) :=
  ⟨Or.inr (by decide),
   calculate_usage_nonneg_conditions {} {} {} (by decide) (by decide) (by decide)
     (by decide) (by decide) (by decide) (Or.inr (by decide))⟩

/-- C10: a rule carrying a glob pattern matches any request for its tool
when the context is falsy (None or empty): the pattern test is skipped,
the rule level — deny included — is returned, and the whole decision is
independent of the glob matcher, so no path is ever tested against the
pattern. -/
theorem pattern_rule_matches_without_context
    (r : PermissionRule) (fnmatchA fnmatchB : String → String → Bool) (now : Int)
    (tool : String) (context : Option (List (String × String)))
    (sessionRules rules : List PermissionRule)
    (hctx : ctxTruthy context = false) (htool : r.tool = tool)
    (hexp : ruleExpired now r = false) :
    r.matches fnmatchA now tool context = true ∧
    check_permission fnmatchA now [] [r] tool context = r.level ∧
    check_permission fnmatchA now sessionRules rules tool context =
      check_permission fnmatchB now sessionRules rules tool context := by
  have hm : r.matches fnmatchA now tool context = true := by
    simp [PermissionRule.matches, htool, hexp, hctx]
  refine ⟨hm, ?_, ?_⟩
  · simp [check_permission, hm]
  · have hfun : (fun rr : PermissionRule => rr.matches fnmatchA now tool context)
        = (fun rr => rr.matches fnmatchB now tool context) :=
      funext (fun rr => matches_ctx_indep fnmatchA fnmatchB now tool hctx rr)
    simp [check_permission, hfun]

/-- Witness for pattern_rule_matches_without_context at a pattern-guarded
deny rule with a None context. -/
theorem pattern_rule_matches_without_context_witness :
    ctxTruthy none = false ∧ c10Rule.tool = "write" ∧ ruleExpired 0 c10Rule = false ∧
    (c10Rule.matches alwaysMatch 0 "write" none = true ∧
     check_permission alwaysMatch 0 [] [c10Rule] "write" none = c10Rule.level ∧
     check_permission alwaysMatch 0 [] [c10Rule] "write" none =
       check_permission neverMatch 0 [] [c10Rule] "write" none) :=
  ⟨rfl, rfl, rfl,
   pattern_rule_matches_without_context c10Rule alwaysMatch neverMatch 0 "write" none
     [] [c10Rule] rfl rfl rfl⟩
